import Mathlib

/-!
Verification development for the Birthday-Reminder bot (`src/main.py`).

The reference timezone in the source is Europe/Moscow, which has a fixed
UTC+3 offset for every year the program manipulates (2014 onwards), so a
civil (wall-clock) datetime in Moscow is modelled as a record of six
naturals and an instant is the corresponding absolute second count; the
UTC conversion subtracts the constant offset.  Python `datetime`
comparison of two aware datetimes carrying the same fixed-offset zone
coincides with lexicographic comparison of the civil fields, which is how
the order is defined below.  `datetime.replace(year=...)` raises
`ValueError` when the resulting calendar date does not exist (Feb 29 of a
non-leap year); fallible constructions therefore return `Option`, with
`none` standing for the raised exception.  Times are modelled to second
precision (the program always builds candidates with `second=0`).
-/

namespace BirthdayBot

/-- A calendar date as parsed from a `ДД.ММ.ГГГГ` string. -/
structure Date where
  day : Nat
  month : Nat
  year : Nat
deriving DecidableEq, Repr

/-- A civil (wall-clock) datetime in the fixed reference timezone. -/
@[ext]
structure DateTime where
  year : Nat
  month : Nat
  day : Nat
  hour : Nat
  minute : Nat
  second : Nat
deriving DecidableEq, Repr

/-- Gregorian leap-year rule, as implemented by Python `calendar`/`datetime`. -/
def isLeap (y : Nat) : Bool :=
  y % 4 == 0 && (y % 100 != 0 || y % 400 == 0)

/-- Number of days in a month, used by `datetime.replace` validity checking. -/
def daysInMonth (y m : Nat) : Nat :=
  if m = 2 then (if isLeap y then 29 else 28)
  else if m = 4 ∨ m = 6 ∨ m = 9 ∨ m = 11 then 30
  else 31

/-- Strict order on civil datetimes: lexicographic on the six fields.  For two
aware Python datetimes in the same fixed-offset zone this is exactly `<`. -/
def dtLt (a b : DateTime) : Prop :=
  a.year < b.year ∨ (a.year = b.year ∧
    (a.month < b.month ∨ (a.month = b.month ∧
      (a.day < b.day ∨ (a.day = b.day ∧
        (a.hour < b.hour ∨ (a.hour = b.hour ∧
          (a.minute < b.minute ∨ (a.minute = b.minute ∧
            a.second < b.second)))))))))

instance (a b : DateTime) : Decidable (dtLt a b) := by
  unfold dtLt
  infer_instance

/-- Reflexive closure of `dtLt` (Python `<=`). -/
def dtLe (a b : DateTime) : Prop :=
  dtLt a b ∨ a = b

instance (a b : DateTime) : Decidable (dtLe a b) := by
  unfold dtLe
  infer_instance

theorem dt_not_lt (a b : DateTime) : ¬ dtLt a b ↔ dtLe b a := by
  unfold dtLe dtLt
  rw [DateTime.ext_iff]
  omega

theorem dt_le_lt_absurd (a b : DateTime) (h1 : dtLe a b) (h2 : dtLt b a) : False := by
  unfold dtLe at h1
  unfold dtLt at h1 h2
  rw [DateTime.ext_iff] at h1
  omega

theorem dt_lt_of_year_lt (a b : DateTime) (h : a.year < b.year) : dtLt a b :=
  Or.inl h

/-- The candidate instant built by
`birthdate.replace(year=y, hour=hh, minute=mm, second=0, tzinfo=MOSCOW_TZ)`:
`none` models the `ValueError` raised when the target calendar date does not
exist in year `y`. -/
def mkCandidate (b : Date) (hh mm y : Nat) : Option DateTime :=
  if b.day ≤ daysInMonth y b.month then
    some ⟨y, b.month, b.day, hh, mm, 0⟩
  else none

theorem mkCandidate_eq_some (b : Date) (hh mm y : Nat) (c : DateTime) :
    mkCandidate b hh mm y = some c ↔
      (b.day ≤ daysInMonth y b.month ∧ c = ⟨y, b.month, b.day, hh, mm, 0⟩) := by
  unfold mkCandidate
  split
  · simp only [Option.some.injEq]
    constructor
    · intro h
      exact ⟨by assumption, h.symm⟩
    · intro h
      exact h.2.symm
  · simp only [reduceCtorEq, false_iff, not_and]
    intro h
    exact absurd h (by assumption)

/-- `get_next_birthday(birthdate_str, reminder_time)` from `src/main.py`
(lines 964-981): build this year's candidate at the reminder time-of-day; if
it is strictly before `now`, rebuild with next year.  Either `replace` call
may raise (`none`). -/
def get_next_birthday (b : Date) (hh mm : Nat) (now : DateTime) : Option DateTime :=
  match mkCandidate b hh mm now.year with
  | none => none
  | some c => if dtLt c now then mkCandidate b hh mm (now.year + 1) else some c

/-- Candidates with the same month/day/time are ordered by year. -/
theorem cand_le_cand (b : Date) (hh mm y1 y2 : Nat) (h : y1 ≤ y2) :
    dtLe ⟨y1, b.month, b.day, hh, mm, 0⟩ ⟨y2, b.month, b.day, hh, mm, 0⟩ := by
  unfold dtLe dtLt
  rw [DateTime.ext_iff]
  dsimp only
  omega

theorem isLeap_succ_of_isLeap (y : Nat) (h : isLeap y = true) :
    isLeap (y + 1) = false := by
  unfold isLeap at h ⊢
  simp only [Bool.and_eq_true, beq_iff_eq, Bool.or_eq_true, bne_iff_ne, ne_eq] at h
  simp only [Bool.and_eq_false_iff, beq_eq_false_iff_ne, ne_eq]
  left
  omega

/-- Claim C1: for every birthdate and reminder time-of-day for which the
candidate calendar dates are constructible, `get_next_birthday` returns an
instant that is at least `now` and is the earliest constructible annual
occurrence that is at least `now` (never a past instant, never skipping an
already-future one). -/
theorem get_next_birthday_ge_now_earliest (b : Date) (hh mm : Nat) (now : DateTime)
    (h1 : b.day ≤ daysInMonth now.year b.month)
    (h2 : b.day ≤ daysInMonth (now.year + 1) b.month) :
    ∃ nb, get_next_birthday b hh mm now = some nb ∧ dtLe now nb ∧
      ∀ y c, mkCandidate b hh mm y = some c → dtLe now c → dtLe nb c := by
  have hc0 : mkCandidate b hh mm now.year =
      some ⟨now.year, b.month, b.day, hh, mm, 0⟩ := by
    unfold mkCandidate
    rw [if_pos h1]
  have hc1 : mkCandidate b hh mm (now.year + 1) =
      some ⟨now.year + 1, b.month, b.day, hh, mm, 0⟩ := by
    unfold mkCandidate
    rw [if_pos h2]
  unfold get_next_birthday
  simp only [hc0]
  by_cases hlt : dtLt ⟨now.year, b.month, b.day, hh, mm, 0⟩ now
  · rw [if_pos hlt, hc1]
    refine ⟨_, rfl, ?_, ?_⟩
    · exact Or.inl (dt_lt_of_year_lt _ _ (Nat.lt_succ_self _))
    · intro y c hmk hnc
      obtain ⟨hday, rfl⟩ := (mkCandidate_eq_some b hh mm y c).mp hmk
      have hy : now.year + 1 ≤ y := by
        by_contra hcon
        rcases Nat.lt_or_ge y now.year with hy2 | hy2
        · exact dt_le_lt_absurd now _ hnc (dt_lt_of_year_lt _ _ hy2)
        · have : y = now.year := by omega
          subst this
          exact dt_le_lt_absurd now _ hnc hlt
      exact cand_le_cand b hh mm _ _ hy
  · rw [if_neg hlt]
    refine ⟨_, rfl, (dt_not_lt _ _).mp hlt, ?_⟩
    intro y c hmk hnc
    obtain ⟨hday, rfl⟩ := (mkCandidate_eq_some b hh mm y c).mp hmk
    have hy : now.year ≤ y := by
      by_contra hcon
      exact dt_le_lt_absurd now _ hnc (dt_lt_of_year_lt _ _ (by dsimp only; omega))
    exact cand_le_cand b hh mm _ _ hy

/-- Witness for C1 at the spec's running example: birthdate 15.05.1990, time
09:00, now 2024-05-10 12:00 Moscow. -/
theorem get_next_birthday_ge_now_earliest_witness :
    ∃ nb, get_next_birthday ⟨15, 5, 1990⟩ 9 0 ⟨2024, 5, 10, 12, 0, 0⟩ = some nb ∧
      dtLe ⟨2024, 5, 10, 12, 0, 0⟩ nb ∧
      ∀ y c, mkCandidate ⟨15, 5, 1990⟩ 9 0 y = some c →
        dtLe ⟨2024, 5, 10, 12, 0, 0⟩ c → dtLe nb c :=
  get_next_birthday_ge_now_earliest ⟨15, 5, 1990⟩ 9 0 ⟨2024, 5, 10, 12, 0, 0⟩
    (by decide) (by decide)

/-- Claim C9: for a Feb-29 birthdate whose candidate occurrence falls in a
non-leap year, `get_next_birthday` raises the calendar-date construction
error (`none`) instead of returning an occurrence: this happens both when
the current year is not leap and when the current year is leap but its
candidate already passed (the following year is then never leap). -/
theorem get_next_birthday_feb29_raises (b : Date) (hh mm : Nat) (now : DateTime)
    (hm : b.month = 2) (hd : b.day = 29) :
    (isLeap now.year = false → get_next_birthday b hh mm now = none) ∧
    (isLeap now.year = true → dtLt ⟨now.year, 2, 29, hh, mm, 0⟩ now →
      get_next_birthday b hh mm now = none) := by
  constructor
  · intro hnl
    unfold get_next_birthday mkCandidate daysInMonth
    rw [hm, hd, hnl]
    simp
  · intro hl hlt
    have hc0 : mkCandidate b hh mm now.year =
        some ⟨now.year, 2, 29, hh, mm, 0⟩ := by
      unfold mkCandidate daysInMonth
      rw [hm, hd, hl]
      simp
    unfold get_next_birthday
    simp only [hc0]
    rw [if_pos hlt]
    unfold mkCandidate daysInMonth
    rw [hm, hd, isLeap_succ_of_isLeap now.year hl]
    simp

/-- Witness for C9: birthdate 29.02.2000, reminder 09:00.  In 2025 (non-leap)
the candidate is unconstructible; in 2024 (leap) with the candidate already
past, the projection to 2025 is unconstructible.  Both calls raise. -/
theorem get_next_birthday_feb29_raises_witness :
    get_next_birthday ⟨29, 2, 2000⟩ 9 0 ⟨2025, 6, 1, 0, 0, 0⟩ = none ∧
    get_next_birthday ⟨29, 2, 2000⟩ 9 0 ⟨2024, 6, 1, 0, 0, 0⟩ = none := by
  constructor
  · exact (get_next_birthday_feb29_raises ⟨29, 2, 2000⟩ 9 0 ⟨2025, 6, 1, 0, 0, 0⟩
      rfl rfl).1 (by decide)
  · exact (get_next_birthday_feb29_raises ⟨29, 2, 2000⟩ 9 0 ⟨2024, 6, 1, 0, 0, 0⟩
      rfl rfl).2 (by decide) (by decide)

/-! ### Instants and the scheduler model

An instant is an absolute count of seconds (UTC).  `daysFromCivil` is the
standard civil-from-days conversion used by calendar libraries, ported with
Lean `Int` division (truncation toward zero, as in the C family).  Moscow
civil time is UTC+3, so `astimezone(UTC)` subtracts 10800 seconds.  Within a
fixed-offset zone, Python aware-datetime ± `timedelta` arithmetic coincides
with arithmetic on the instant, so job due-instants computed by
`schedule_reminders` appear below as `Int` arithmetic on `toUTC`. -/

def daysFromCivil (y m d : Nat) : Int :=
  let yAdj : Int := if m ≤ 2 then (y : Int) - 1 else (y : Int)
  let era : Int := (if 0 ≤ yAdj then yAdj else yAdj - 399) / 400
  let yoe : Int := yAdj - era * 400
  let mp : Int := ((m : Int) + 9) % 12
  let doy : Int := (153 * mp + 2) / 5 + (d : Int) - 1
  let doe : Int := yoe * 365 + yoe / 4 - yoe / 100 + doy
  era * 146097 + doe - 719468

/-- The UTC instant (seconds since the Unix epoch) of a Moscow civil
datetime: `dt.astimezone(ZoneInfo("UTC"))` with the fixed +3h offset. -/
def toUTC (dt : DateTime) : Int :=
  daysFromCivil dt.year dt.month dt.day * 86400
    + ((dt.hour * 3600 + dt.minute * 60 + dt.second : Nat) : Int) - 10800

/-- Exceptions raised by the embedded operations: `valueError` for an invalid
calendar construction, `conflictingId` for APScheduler `add_job` on an id
that already has a pending job. -/
inductive PyError where
  | valueError
  | conflictingId
deriving DecidableEq, Repr

/-- The payload a job carries: which coroutine APScheduler will invoke and
with which captured arguments (`args=[...]` at `add_job` time). -/
inductive Action where
  | sendReminder (chat_id : Int) (text : String)
  | sendBirthdayNotification (chat_id : Int) (name : String) (username : Option String)
  | sendCongrats (chat_id : Int) (name : String) (birth : Date) (description : Option String)
  | rearm (name : String) (birth : Date) (chat_id : Int) (hh mm : Nat) (username : Option String)
deriving DecidableEq, Repr

/-- One pending scheduler job: stable identifier, due instant (UTC seconds),
captured action. -/
structure Job where
  id : String
  due : Int
  action : Action
deriving DecidableEq, Repr

/-- The job identifier convention of the source: f-strings such as
`f"{chat_id}_{name}_3d"`. -/
def jobId (chat : Int) (name kind : String) : String :=
  toString chat ++ "_" ++ name ++ "_" ++ kind

/-- The five job kinds the orchestrator may register for one subscription. -/
def kinds5 : List String :=
  ["3d", "1d", "day_notification", "day_congrats", "annual"]

def jobIdsFor (chat : Int) (name : String) : List String :=
  kinds5.map (jobId chat name)

/-- APScheduler `add_job(..., id=job_id)` with the default
`replace_existing=False`: raises `ConflictingIdError` when a pending job
already carries the id, otherwise appends the new job. -/
def add_job (sched : List Job) (j : Job) : Except PyError (List Job) :=
  if sched.any (fun j0 => j0.id == j.id) then .error .conflictingId
  else .ok (sched ++ [j])

/-- `try: scheduler.remove_job(job_id) except: pass` — removes the job with
the given id when present, silently does nothing otherwise. -/
def removeJobSafe (sched : List Job) (id : String) : List Job :=
  sched.filter (fun j => j.id != id)

/-- `remove_scheduled_reminders(chat_id, name)` from `src/main.py`
(lines 1090-1103): best-effort removal of all five job ids for the key. -/
def remove_scheduled_reminders (chat : Int) (name : String) (sched : List Job) : List Job :=
  (jobIdsFor chat name).foldl removeJobSafe sched

/-- `remove_specific_reminder(chat_id, name, reminder_type)` from
`src/main.py` (lines 1106-1111). -/
def remove_specific_reminder (chat : Int) (name kind : String) (sched : List Job) : List Job :=
  removeJobSafe sched (jobId chat name kind)

/-- `datetime.replace(year=y)` on a full datetime: raises (`none`) when the
resulting calendar date does not exist in year `y`. -/
def replaceYearDT (dt : DateTime) (y : Nat) : Option DateTime :=
  if dt.day ≤ daysInMonth y dt.month then some { dt with year := y } else none

/-- One row of the `birthdays` table. -/
structure Subscription where
  user_id : Int
  chat_id : Int
  name : String
  birthdate : Date
  description : Option String
  telegram_username : Option String
  reminder_hour : Nat
  reminder_minute : Nat
  remind_3_days : Bool
  remind_1_day : Bool
  remind_day : Bool
deriving DecidableEq, Repr

/-- `SELECT ... FROM birthdays WHERE name = ? AND chat_id = ?` with
`fetchone`: the first matching row in table order. -/
def findSub (store : List Subscription) (name : String) (chat : Int) : Option Subscription :=
  store.find? (fun s => s.name == name && s.chat_id == chat)

/-- `schedule_reminders(name, birthdate_str, chat_id, reminder_time,
telegram_username)` from `src/main.py` (lines 1008-1086), acting on a
scheduler state.  The reminder flags and the description are re-read from
the store; the birthdate, reminder time and username are the passed
arguments.  An exception aborts the call (`Except.error`). -/
def schedule_reminders (store : List Subscription) (sched : List Job)
    (name : String) (birth : Date) (chat_id : Int) (rh rm : Nat)
    (username : Option String) (now : DateTime) : Except PyError (List Job) :=
  match findSub store name chat_id with
  | none => .ok sched
  | some sub =>
    match get_next_birthday birth rh rm now with
    | none => .error .valueError
    | some nb =>
      (if sub.remind_3_days then
          add_job sched ⟨jobId chat_id name "3d", toUTC nb - 3 * 86400,
            .sendReminder chat_id ("⏰ Напоминание: Через 3 дня у " ++ name ++ " день рождения!")⟩
        else .ok sched).bind fun s1 =>
      (if sub.remind_1_day then
          add_job s1 ⟨jobId chat_id name "1d", toUTC nb - 86400,
            .sendReminder chat_id ("⏰ Напоминание: Завтра у " ++ name ++ " день рождения!")⟩
        else .ok s1).bind fun s2 =>
      (if sub.remind_day then
          (add_job s2 ⟨jobId chat_id name "day_notification", toUTC nb,
            .sendBirthdayNotification chat_id name username⟩).bind fun s3 =>
          add_job s3 ⟨jobId chat_id name "day_congrats", toUTC nb + 2,
            .sendCongrats chat_id name birth
              (match findSub store name chat_id with
               | some row => row.description
               | none => none)⟩
        else .ok s2).bind fun s4 =>
      match replaceYearDT nb (nb.year + 1) with
      | none => .error .valueError
      | some nyb =>
        add_job s4 ⟨jobId chat_id name "annual", toUTC nyb + 86400,
          .rearm name birth chat_id rh rm username⟩

/-- A delivered message, recorded as the collaborator invocation it causes:
`congrats` records the `(name, birthdate, description)` triple handed to the
Message Composer (`generate_congrats`). -/
inductive SentMsg where
  | reminder (chat : Int) (text : String)
  | birthdayNotification (chat : Int) (name : String) (username : Option String)
  | congrats (chat : Int) (name : String) (birth : Date) (description : Option String)
deriving DecidableEq, Repr

/-- Firing a job: the scheduler invokes the stored target with the captured
`args`.  `send_reminder`, `send_birthday_notification` and
`send_congrats_message` (lines 987-1005) deliver using only their arguments
(no store read); the `annual` job's target is `schedule_reminders` itself,
which re-reads flags and description from the current store. -/
def runAction (a : Action) (store : List Subscription) (sched : List Job)
    (now : DateTime) : Except PyError (List Job) × List SentMsg :=
  match a with
  | .sendReminder c t => (.ok sched, [.reminder c t])
  | .sendBirthdayNotification c n u => (.ok sched, [.birthdayNotification c n u])
  | .sendCongrats c n b d => (.ok sched, [.congrats c n b d])
  | .rearm n b c hh mm u => (schedule_reminders store sched n b c hh mm u now, [])

/-- The save step of the reminders-flags settings dialogue
(`process_settings_value`, `src/main.py` lines 744-839): update the three
flags in the store, then remove the jobs of every flag that is now
disabled.  No job is (re)scheduled here. -/
def process_settings_reminders (store : List Subscription) (sched : List Job)
    (user_id chat_id : Int) (name : String) (r3d r1d rd : Bool) :
    List Subscription × List Job :=
  let store2 := store.map (fun s =>
    if s.name == name && s.user_id == user_id then
      { s with remind_3_days := r3d, remind_1_day := r1d, remind_day := rd }
    else s)
  let s1 := if r3d = false then remove_specific_reminder chat_id name "3d" sched else sched
  let s2 := if r1d = false then remove_specific_reminder chat_id name "1d" s1 else s1
  let s3 := if rd = false then
      remove_specific_reminder chat_id name "day_congrats"
        (remove_specific_reminder chat_id name "day_notification" s2)
    else s2
  (store2, s3)

/-- Observable steps of the deletion handler, in program order. -/
inductive Event where
  | deleteCommit (name : String) (user_id : Int)
  | removeJobAttempt (id : String)
deriving DecidableEq, Repr

def Event.isCommit : Event → Bool
  | .deleteCommit _ _ => true
  | _ => false

def Event.isRemoval : Event → Bool
  | .removeJobAttempt _ => true
  | _ => false

/-- Whether some job-removal attempt happens strictly before the delete
commit in an event trace. -/
def disarmBeforeCommit (evs : List Event) : Bool :=
  (evs.takeWhile (fun e => !e.isCommit)).any Event.isRemoval

/-- `process_confirm_delete` (`src/main.py` lines 938-960), on the confirming
answer: `DELETE FROM birthdays WHERE name = ? AND user_id = ?` followed by
`db.commit()`, and only then `remove_scheduled_reminders(chat_id, name)`.
Returns the new store, the new scheduler state and the event trace in
program order. -/
def process_confirm_delete (store : List Subscription) (sched : List Job)
    (user_id chat_id : Int) (name : String) (confirmed : Bool) :
    List Subscription × List Job × List Event :=
  if confirmed then
    (store.filter (fun s => !(s.name == name && s.user_id == user_id)),
     remove_scheduled_reminders chat_id name sched,
     Event.deleteCommit name user_id :: (jobIdsFor chat_id name).map Event.removeJobAttempt)
  else (store, sched, [])

/-! ### Helper lemmas -/

theorem string_append_left_cancel (s t u : String) (h : s ++ t = s ++ u) : t = u := by
  have h2 : (s ++ t).data = (s ++ u).data := congrArg String.data h
  rw [String.data_append, String.data_append] at h2
  exact String.ext (List.append_cancel_left h2)

theorem jobId_kind_inj (chat : Int) (name : String) (k1 k2 : String)
    (h : jobId chat name k1 = jobId chat name k2) : k1 = k2 := by
  unfold jobId at h
  exact string_append_left_cancel _ _ _ h

theorem jobId_beq_false (chat : Int) (name : String) (k1 k2 : String) (h : k1 ≠ k2) :
    (jobId chat name k1 == jobId chat name k2) = false :=
  beq_eq_false_iff_ne.mpr (fun he => h (jobId_kind_inj chat name k1 k2 he))

theorem foldl_removeJobSafe_eq_filter (ids : List String) (sched : List Job) :
    ids.foldl removeJobSafe sched = sched.filter (fun j => !ids.contains j.id) := by
  induction ids generalizing sched with
  | nil => simp
  | cons id rest ih =>
    rw [List.foldl_cons, ih (removeJobSafe sched id)]
    unfold removeJobSafe
    rw [List.filter_filter]
    refine List.filter_congr ?_
    intro j _
    cases h1 : (j.id == id) <;> cases h2 : rest.contains j.id <;>
      simp only [List.contains_cons, h1, h2, bne, Bool.not_true, Bool.not_false,
        Bool.or_true, Bool.or_false, Bool.true_or, Bool.false_or,
        Bool.and_true, Bool.and_false, Bool.true_and, Bool.false_and]

/-- Shape of a successful `schedule_reminders` call: when the row is found,
both calendar constructions succeed and none of the five ids is pending,
the call appends one job per enabled flag (two for the day flag) and always
the annual job, in program order. -/
theorem schedule_reminders_eq (store : List Subscription) (sched : List Job)
    (name : String) (birth : Date) (chat : Int) (rh rm : Nat) (u : Option String)
    (now : DateTime) (sub : Subscription) (nb nyb : DateTime)
    (hfind : findSub store name chat = some sub)
    (hnb : get_next_birthday birth rh rm now = some nb)
    (hny : replaceYearDT nb (nb.year + 1) = some nyb)
    (hfresh : ∀ k ∈ kinds5, sched.any (fun j => j.id == jobId chat name k) = false) :
    schedule_reminders store sched name birth chat rh rm u now =
      .ok (sched ++
        ((if sub.remind_3_days then
            [⟨jobId chat name "3d", toUTC nb - 3 * 86400,
              .sendReminder chat ("⏰ Напоминание: Через 3 дня у " ++ name ++ " день рождения!")⟩]
          else []) ++
         (if sub.remind_1_day then
            [⟨jobId chat name "1d", toUTC nb - 86400,
              .sendReminder chat ("⏰ Напоминание: Завтра у " ++ name ++ " день рождения!")⟩]
          else []) ++
         (if sub.remind_day then
            [⟨jobId chat name "day_notification", toUTC nb,
              .sendBirthdayNotification chat name u⟩,
             ⟨jobId chat name "day_congrats", toUTC nb + 2,
              .sendCongrats chat name birth sub.description⟩]
          else []) ++
         [⟨jobId chat name "annual", toUTC nyb + 86400,
           .rearm name birth chat rh rm u⟩])) := by
  have f3 := hfresh "3d" (by decide)
  have f1 := hfresh "1d" (by decide)
  have fdn := hfresh "day_notification" (by decide)
  have fdc := hfresh "day_congrats" (by decide)
  have fan := hfresh "annual" (by decide)
  have ne31 := jobId_beq_false chat name "3d" "1d" (by decide)
  have ne3n := jobId_beq_false chat name "3d" "day_notification" (by decide)
  have ne3c := jobId_beq_false chat name "3d" "day_congrats" (by decide)
  have ne3a := jobId_beq_false chat name "3d" "annual" (by decide)
  have ne1n := jobId_beq_false chat name "1d" "day_notification" (by decide)
  have ne1c := jobId_beq_false chat name "1d" "day_congrats" (by decide)
  have ne1a := jobId_beq_false chat name "1d" "annual" (by decide)
  have nenc := jobId_beq_false chat name "day_notification" "day_congrats" (by decide)
  have nena := jobId_beq_false chat name "day_notification" "annual" (by decide)
  have neca := jobId_beq_false chat name "day_congrats" "annual" (by decide)
  unfold schedule_reminders
  simp only [hfind, hnb, hny]
  cases h3 : sub.remind_3_days <;> cases h1 : sub.remind_1_day <;>
    cases hd : sub.remind_day <;>
    simp [add_job, Except.bind, List.any_append, List.any_cons, List.any_nil,
      f3, f1, fdn, fdc, fan, ne31, ne3n, ne3c, ne3a, ne1n, ne1c, ne1a, nenc,
      nena, neca, List.append_assoc]

/-! ### Concrete fixtures (the spec's running example: Anna, 15.05.1990,
reminders at 09:00 Moscow, viewed on 2024-05-10) -/

def annaBirth : Date := ⟨15, 5, 1990⟩

def now0 : DateTime := ⟨2024, 5, 10, 12, 0, 0⟩

def annaSub : Subscription :=
  { user_id := 1, chat_id := 1, name := "Анна", birthdate := annaBirth,
    description := some "любит кошек", telegram_username := none,
    reminder_hour := 9, reminder_minute := 0,
    remind_3_days := true, remind_1_day := true, remind_day := true }

/-- Claim C2: arming a subscription whose three reminder flags are all
enabled registers exactly the five jobs of kinds 3d, 1d, day_notification,
day_congrats and annual, due respectively at nextBirthday − 3 days,
− 1 day, nextBirthday, + 2 seconds, and the following year's occurrence
+ 1 day. -/
theorem schedule_all_flags_registers_five (store : List Subscription) (sched : List Job)
    (name : String) (birth : Date) (chat : Int) (rh rm : Nat) (u : Option String)
    (now : DateTime) (sub : Subscription) (nb nyb : DateTime)
    (hfind : findSub store name chat = some sub)
    (h3 : sub.remind_3_days = true) (h1 : sub.remind_1_day = true)
    (hd : sub.remind_day = true)
    (hnb : get_next_birthday birth rh rm now = some nb)
    (hny : replaceYearDT nb (nb.year + 1) = some nyb)
    (hfresh : ∀ k ∈ kinds5, sched.any (fun j => j.id == jobId chat name k) = false) :
    schedule_reminders store sched name birth chat rh rm u now =
      .ok (sched ++
        [⟨jobId chat name "3d", toUTC nb - 3 * 86400,
           .sendReminder chat ("⏰ Напоминание: Через 3 дня у " ++ name ++ " день рождения!")⟩,
         ⟨jobId chat name "1d", toUTC nb - 86400,
           .sendReminder chat ("⏰ Напоминание: Завтра у " ++ name ++ " день рождения!")⟩,
         ⟨jobId chat name "day_notification", toUTC nb,
           .sendBirthdayNotification chat name u⟩,
         ⟨jobId chat name "day_congrats", toUTC nb + 2,
           .sendCongrats chat name birth sub.description⟩,
         ⟨jobId chat name "annual", toUTC nyb + 86400,
           .rearm name birth chat rh rm u⟩]) := by
  rw [schedule_reminders_eq store sched name birth chat rh rm u now sub nb nyb
    hfind hnb hny hfresh, h3, h1, hd]
  simp

/-- Witness for C2 at the fixture: from an empty scheduler, Anna's
subscription yields exactly the five jobs of the spec's end-to-end example
(nextBirthday = 2024-05-15 09:00 Moscow). -/
theorem schedule_all_flags_registers_five_witness :
    schedule_reminders [annaSub] [] "Анна" annaBirth 1 9 0 none now0 =
      .ok ([] ++
        [⟨jobId 1 "Анна" "3d", toUTC ⟨2024, 5, 15, 9, 0, 0⟩ - 3 * 86400,
           .sendReminder 1 ("⏰ Напоминание: Через 3 дня у " ++ "Анна" ++ " день рождения!")⟩,
         ⟨jobId 1 "Анна" "1d", toUTC ⟨2024, 5, 15, 9, 0, 0⟩ - 86400,
           .sendReminder 1 ("⏰ Напоминание: Завтра у " ++ "Анна" ++ " день рождения!")⟩,
         ⟨jobId 1 "Анна" "day_notification", toUTC ⟨2024, 5, 15, 9, 0, 0⟩,
           .sendBirthdayNotification 1 "Анна" none⟩,
         ⟨jobId 1 "Анна" "day_congrats", toUTC ⟨2024, 5, 15, 9, 0, 0⟩ + 2,
           .sendCongrats 1 "Анна" annaBirth annaSub.description⟩,
         ⟨jobId 1 "Анна" "annual", toUTC ⟨2025, 5, 15, 9, 0, 0⟩ + 86400,
           .rearm "Анна" annaBirth 1 9 0 none⟩]) :=
  schedule_all_flags_registers_five [annaSub] [] "Анна" annaBirth 1 9 0 none now0
    annaSub ⟨2024, 5, 15, 9, 0, 0⟩ ⟨2025, 5, 15, 9, 0, 0⟩
    (by decide) rfl rfl rfl (by decide) (by decide) (by decide)

/-- Claim C10: the annual-rearm job is registered unconditionally, whatever
the three reminder flags are; in particular a subscription with all three
flags disabled still ends up with exactly one pending job, the annual
re-arm. -/
theorem schedule_annual_unconditional (store : List Subscription) (sched : List Job)
    (name : String) (birth : Date) (chat : Int) (rh rm : Nat) (u : Option String)
    (now : DateTime) (sub : Subscription) (nb nyb : DateTime)
    (hfind : findSub store name chat = some sub)
    (hnb : get_next_birthday birth rh rm now = some nb)
    (hny : replaceYearDT nb (nb.year + 1) = some nyb)
    (hfresh : ∀ k ∈ kinds5, sched.any (fun j => j.id == jobId chat name k) = false) :
    (∃ s2, schedule_reminders store sched name birth chat rh rm u now = .ok s2 ∧
      ⟨jobId chat name "annual", toUTC nyb + 86400,
        .rearm name birth chat rh rm u⟩ ∈ s2) ∧
    (sub.remind_3_days = false → sub.remind_1_day = false → sub.remind_day = false →
      schedule_reminders store sched name birth chat rh rm u now =
        .ok (sched ++
          [⟨jobId chat name "annual", toUTC nyb + 86400,
            .rearm name birth chat rh rm u⟩])) := by
  constructor
  · refine ⟨_, schedule_reminders_eq store sched name birth chat rh rm u now sub nb nyb
      hfind hnb hny hfresh, ?_⟩
    simp
  · intro h3 h1 hd
    rw [schedule_reminders_eq store sched name birth chat rh rm u now sub nb nyb
      hfind hnb hny hfresh, h3, h1, hd]
    simp

def annaSubOff : Subscription :=
  { annaSub with remind_3_days := false, remind_1_day := false, remind_day := false }

/-- Witness for C10: all three flags disabled, empty scheduler: exactly the
annual job remains. -/
theorem schedule_annual_unconditional_witness :
    schedule_reminders [annaSubOff] [] "Анна" annaBirth 1 9 0 none now0 =
      .ok ([] ++
        [⟨jobId 1 "Анна" "annual", toUTC ⟨2025, 5, 15, 9, 0, 0⟩ + 86400,
          .rearm "Анна" annaBirth 1 9 0 none⟩]) :=
  (schedule_annual_unconditional [annaSubOff] [] "Анна" annaBirth 1 9 0 none now0
    annaSubOff ⟨2024, 5, 15, 9, 0, 0⟩ ⟨2025, 5, 15, 9, 0, 0⟩
    (by decide) (by decide) (by decide) (by decide)).2 rfl rfl rfl

/-- Counterexample to C3: scheduling under identifiers that already have
pending jobs does NOT replace them — the second `schedule_reminders` call
for the same subscription raises `ConflictingIdError` (APScheduler
`add_job` default `replace_existing=False`). -/
theorem schedule_reminders_second_call_raises :
    (schedule_reminders [annaSub] [] "Анна" annaBirth 1 9 0 none now0).bind
      (fun s => schedule_reminders [annaSub] s "Анна" annaBirth 1 9 0 none now0) =
      .error .conflictingId := by
  rfl

/-- Claim C3 (amended): at most one job per identifier holds structurally
(pairwise-distinct ids are preserved by `add_job`), but scheduling under an
identifier that already has a pending job raises a conflict error instead
of replacing; the pending job keeps the first call's due-instant, so
callers must cancel before rescheduling. -/
theorem add_job_conflict_raises_ids_unique (sched : List Job) (j : Job) :
    (sched.any (fun j0 => j0.id == j.id) = true →
      add_job sched j = .error .conflictingId) ∧
    ((sched.map Job.id).Nodup → ∀ s2, add_job sched j = .ok s2 →
      (s2.map Job.id).Nodup) := by
  constructor
  · intro h
    unfold add_job
    rw [if_pos h]
  · intro hnd s2 hok
    unfold add_job at hok
    split at hok
    · cases hok
    · cases hok
      rename_i hc
      rw [List.map_append, List.nodup_append]
      refine ⟨hnd, List.nodup_singleton _, ?_⟩
      intro a ha hb
      rw [List.map_singleton, List.mem_singleton] at hb
      subst hb
      rw [Bool.not_eq_true, List.any_eq_false] at hc
      rcases List.mem_map.mp ha with ⟨j0, hj0, hid⟩
      exact hc j0 hj0 (by rw [beq_iff_eq]; exact hid)

/-- Witness for C3 (amended): a conflicting `add_job` raises on an explicit
one-job scheduler, and a non-conflicting one preserves distinct ids. -/
theorem add_job_conflict_raises_ids_unique_witness :
    add_job [⟨"7_x_3d", 0, .sendReminder 7 "a"⟩] ⟨"7_x_3d", 5, .sendReminder 7 "b"⟩ =
      .error .conflictingId ∧
    ([⟨"7_x_3d", 0, .sendReminder 7 "a"⟩, ⟨"7_x_1d", 5, .sendReminder 7 "b"⟩].map
      Job.id).Nodup := by
  constructor
  · exact (add_job_conflict_raises_ids_unique
      [⟨"7_x_3d", 0, .sendReminder 7 "a"⟩] ⟨"7_x_3d", 5, .sendReminder 7 "b"⟩).1
      (by decide)
  · exact (add_job_conflict_raises_ids_unique
      [⟨"7_x_3d", 0, .sendReminder 7 "a"⟩] ⟨"7_x_1d", 5, .sendReminder 7 "b"⟩).2
      (by decide) _ rfl

/-- Folding best-effort removals over a list of ids leaves no job whose id
is in the list. -/
theorem foldl_remove_any_false (ids : List String) (sched : List Job) (id : String)
    (h : id ∈ ids) :
    (ids.foldl removeJobSafe sched).any (fun j => j.id == id) = false := by
  rw [foldl_removeJobSafe_eq_filter, List.any_eq_false]
  intro j hj
  rw [List.mem_filter] at hj
  have h2 := hj.2
  rw [Bool.not_eq_true'] at h2
  intro hbeq
  have hid := eq_of_beq hbeq
  have hcont : ids.contains j.id = true := by
    rw [hid]
    simpa using h
  rw [hcont] at h2
  cases h2

/-- Folding best-effort removals keeps every job whose id is not targeted. -/
theorem foldl_remove_mem (ids : List String) (sched : List Job) (j : Job)
    (hj : j ∈ sched) (h : j.id ∉ ids) : j ∈ ids.foldl removeJobSafe sched := by
  rw [foldl_removeJobSafe_eq_filter, List.mem_filter]
  exact ⟨hj, by simpa using h⟩

/-- After `remove_scheduled_reminders`, no job of any of the five kinds is
pending for the key. -/
theorem disarm_clears_kind (sched : List Job) (chat : Int) (name k : String)
    (hk : k ∈ kinds5) :
    (remove_scheduled_reminders chat name sched).any
      (fun j => j.id == jobId chat name k) = false := by
  unfold remove_scheduled_reminders
  exact foldl_remove_any_false _ _ _ (List.mem_map.mpr ⟨k, hk, rfl⟩)

/-- Claim C7: cancelling a job identifier with no pending job does not raise
and leaves the scheduler unchanged; `remove_scheduled_reminders` cancels
all five job identifiers of the (destination, name) key and is idempotent. -/
theorem cancel_noop_disarm_idempotent :
    (∀ (sched : List Job) (id : String),
      sched.any (fun j => j.id == id) = false → removeJobSafe sched id = sched) ∧
    (∀ (sched : List Job) (chat : Int) (name k : String), k ∈ kinds5 →
      (remove_scheduled_reminders chat name sched).any
        (fun j => j.id == jobId chat name k) = false) ∧
    (∀ (sched : List Job) (chat : Int) (name : String),
      remove_scheduled_reminders chat name (remove_scheduled_reminders chat name sched) =
        remove_scheduled_reminders chat name sched) := by
  refine ⟨?_, ?_, ?_⟩
  · intro sched id h
    unfold removeJobSafe
    rw [List.filter_eq_self]
    intro j hj
    rw [List.any_eq_false] at h
    have hne := h j hj
    simp only [bne, Bool.not_eq_true]
    simpa using hne
  · intro sched chat name k hk
    exact disarm_clears_kind sched chat name k hk
  · intro sched chat name
    unfold remove_scheduled_reminders
    rw [foldl_removeJobSafe_eq_filter, foldl_removeJobSafe_eq_filter,
      List.filter_filter]
    refine List.filter_congr ?_
    intro j hj
    cases h : (jobIdsFor chat name).contains j.id <;> simp [h]

/-- Witness for C7: concrete no-op cancel, full disarm, and idempotent
disarm on a one-job scheduler. -/
theorem cancel_noop_disarm_idempotent_witness :
    removeJobSafe [⟨"1_Анна_3d", 3, .sendReminder 1 "t"⟩] "zz" =
      [⟨"1_Анна_3d", 3, .sendReminder 1 "t"⟩] ∧
    (remove_scheduled_reminders 1 "Анна" [⟨"1_Анна_3d", 3, .sendReminder 1 "t"⟩]).any
      (fun j => j.id == jobId 1 "Анна" "3d") = false ∧
    remove_scheduled_reminders 1 "Анна"
        (remove_scheduled_reminders 1 "Анна" [⟨"1_Анна_3d", 3, .sendReminder 1 "t"⟩]) =
      remove_scheduled_reminders 1 "Анна" [⟨"1_Анна_3d", 3, .sendReminder 1 "t"⟩] :=
  ⟨cancel_noop_disarm_idempotent.1 [⟨"1_Анна_3d", 3, .sendReminder 1 "t"⟩] "zz" (by decide),
   cancel_noop_disarm_idempotent.2.1 [⟨"1_Анна_3d", 3, .sendReminder 1 "t"⟩] 1 "Анна" "3d"
     (by decide),
   cancel_noop_disarm_idempotent.2.2 [⟨"1_Анна_3d", 3, .sendReminder 1 "t"⟩] 1 "Анна"⟩

/-- Counterexample to C4: in the deletion handler the delete commit is the
first event and every job-removal attempt comes after it — no disarm is
attempted before the delete commit completes (though both commit and
removals do occur). -/
theorem delete_disarm_after_commit_cex :
    disarmBeforeCommit
      (process_confirm_delete [annaSub] [] 1 1 "Анна" true).2.2 = false ∧
    (process_confirm_delete [annaSub] [] 1 1 "Анна" true).2.2.any Event.isCommit = true ∧
    (process_confirm_delete [annaSub] [] 1 1 "Анна" true).2.2.any Event.isRemoval = true := by
  decide

/-- Claim C4 (amended): confirmed deletion removes the store row and then
removes all five scheduler job identifiers of the subscription — but the
disarm is attempted only after the delete commit, never before it (the
trace is the commit followed by the five removal attempts). -/
theorem delete_removes_row_and_jobs_after_commit (store : List Subscription)
    (sched : List Job) (uid chat : Int) (name : String) :
    ((process_confirm_delete store sched uid chat name true).1.all
        (fun s => !(s.name == name && s.user_id == uid)) = true) ∧
    (∀ k ∈ kinds5,
      (process_confirm_delete store sched uid chat name true).2.1.any
        (fun j => j.id == jobId chat name k) = false) ∧
    ((process_confirm_delete store sched uid chat name true).2.2 =
      Event.deleteCommit name uid ::
        (jobIdsFor chat name).map Event.removeJobAttempt) ∧
    disarmBeforeCommit
      (process_confirm_delete store sched uid chat name true).2.2 = false := by
  refine ⟨?_, ?_, rfl, rfl⟩
  · unfold process_confirm_delete
    simp only [if_true]
    rw [List.all_eq_true]
    intro s hs
    exact (List.mem_filter.mp hs).2
  · intro k hk
    unfold process_confirm_delete
    simp only [if_true]
    exact disarm_clears_kind sched chat name k hk

/-- Witness for C4 (amended) on a concrete store and a scheduler holding
Anna's annual job. -/
theorem delete_removes_row_and_jobs_after_commit_witness :
    ((process_confirm_delete [annaSub]
        [⟨jobId 1 "Анна" "annual", 0, .rearm "Анна" annaBirth 1 9 0 none⟩]
        1 1 "Анна" true).1.all
      (fun s => !(s.name == "Анна" && s.user_id == 1)) = true) ∧
    ((process_confirm_delete [annaSub]
        [⟨jobId 1 "Анна" "annual", 0, .rearm "Анна" annaBirth 1 9 0 none⟩]
        1 1 "Анна" true).2.1.any
      (fun j => j.id == jobId 1 "Анна" "annual") = false) :=
  ⟨(delete_removes_row_and_jobs_after_commit [annaSub]
      [⟨jobId 1 "Анна" "annual", 0, .rearm "Анна" annaBirth 1 9 0 none⟩]
      1 1 "Анна").1,
   (delete_removes_row_and_jobs_after_commit [annaSub]
      [⟨jobId 1 "Анна" "annual", 0, .rearm "Анна" annaBirth 1 9 0 none⟩]
      1 1 "Анна").2.1 "annual" (by decide)⟩

/-- The job identifiers the flags-save handler removes, in program order. -/
def removedIds (chat : Int) (name : String) (r3d r1d rd : Bool) : List String :=
  (if r3d then [] else [jobId chat name "3d"]) ++
  (if r1d then [] else [jobId chat name "1d"]) ++
  (if rd then [] else [jobId chat name "day_notification", jobId chat name "day_congrats"])

theorem process_settings_sched_eq (store : List Subscription) (sched : List Job)
    (uid chat : Int) (name : String) (r3d r1d rd : Bool) :
    (process_settings_reminders store sched uid chat name r3d r1d rd).2 =
      (removedIds chat name r3d r1d rd).foldl removeJobSafe sched := by
  unfold process_settings_reminders removedIds remove_specific_reminder
  cases r3d <;> cases r1d <;> cases rd <;> simp

def annaSubNo3d : Subscription := { annaSub with remind_3_days := false }

def annaJobs4 : List Job :=
  [⟨jobId 1 "Анна" "1d", 10, .sendReminder 1 "t1"⟩,
   ⟨jobId 1 "Анна" "day_notification", 20, .sendBirthdayNotification 1 "Анна" none⟩,
   ⟨jobId 1 "Анна" "day_congrats", 22, .sendCongrats 1 "Анна" annaBirth (some "любит кошек")⟩,
   ⟨jobId 1 "Анна" "annual", 30, .rearm "Анна" annaBirth 1 9 0 none⟩]

/-- Counterexample to C6: Anna's 3-day flag is disabled (so no 3d job is
pending); re-enabling all three flags and saving updates the stored flags
but schedules nothing — afterwards the scheduler still has no 3d job, so it
does not hold the set corresponding to the enabled flags. -/
theorem settings_reenable_no_reschedule_cex :
    (process_settings_reminders [annaSubNo3d] annaJobs4 1 1 "Анна" true true true).1 =
      [annaSub] ∧
    (process_settings_reminders [annaSubNo3d] annaJobs4 1 1 "Анна" true true true).2 =
      annaJobs4 ∧
    (process_settings_reminders [annaSubNo3d] annaJobs4 1 1 "Анна" true true true).2.any
      (fun j => j.id == jobId 1 "Анна" "3d") = false := by
  decide

/-- Claim C6 (amended): saving a flags edit updates the stored flags and
removes the jobs of every disabled flag, leaving the complementary jobs
untouched; but it adds no job, so a re-enabled flag's job is not
rescheduled by this operation. -/
theorem settings_flags_remove_only (store : List Subscription) (sched : List Job)
    (uid chat : Int) (name : String) (r3d r1d rd : Bool) :
    ((process_settings_reminders store sched uid chat name r3d r1d rd).2).Sublist sched ∧
    (r3d = false →
      (process_settings_reminders store sched uid chat name r3d r1d rd).2.any
        (fun j => j.id == jobId chat name "3d") = false) ∧
    (r1d = false →
      (process_settings_reminders store sched uid chat name r3d r1d rd).2.any
        (fun j => j.id == jobId chat name "1d") = false) ∧
    (rd = false →
      (process_settings_reminders store sched uid chat name r3d r1d rd).2.any
        (fun j => j.id == jobId chat name "day_notification") = false ∧
      (process_settings_reminders store sched uid chat name r3d r1d rd).2.any
        (fun j => j.id == jobId chat name "day_congrats") = false) ∧
    (∀ j ∈ sched, j.id ∉ removedIds chat name r3d r1d rd →
      j ∈ (process_settings_reminders store sched uid chat name r3d r1d rd).2) ∧
    (∀ s2 ∈ (process_settings_reminders store sched uid chat name r3d r1d rd).1,
      s2.name = name → s2.user_id = uid →
      s2.remind_3_days = r3d ∧ s2.remind_1_day = r1d ∧ s2.remind_day = rd) := by
  rw [process_settings_sched_eq store sched uid chat name r3d r1d rd]
  refine ⟨?_, ?_, ?_, ?_, ?_, ?_⟩
  · rw [foldl_removeJobSafe_eq_filter]
    exact List.filter_sublist sched
  · intro h
    subst h
    refine foldl_remove_any_false _ _ _ ?_
    unfold removedIds
    simp
  · intro h
    subst h
    refine foldl_remove_any_false _ _ _ ?_
    unfold removedIds
    simp
  · intro h
    subst h
    constructor <;>
      (refine foldl_remove_any_false _ _ _ ?_; unfold removedIds; simp)
  · intro j hj hnot
    exact foldl_remove_mem _ _ _ hj hnot
  · intro s2 hs2 hn hu
    unfold process_settings_reminders at hs2
    rcases List.mem_map.mp hs2 with ⟨s, hs, hfs⟩
    by_cases hc : (s.name == name && s.user_id == uid) = true
    · rw [if_pos hc] at hfs
      subst hfs
      exact ⟨rfl, rfl, rfl⟩
    · rw [if_neg hc] at hfs
      subst hfs
      rw [hn, hu] at hc
      simp at hc

/-- Witness for C6 (amended): disabling the 3-day flag removes its job and
keeps the annual job, on a concrete five-job scheduler. -/
theorem settings_flags_remove_only_witness :
    (process_settings_reminders [annaSub]
        (⟨jobId 1 "Анна" "3d", 5, .sendReminder 1 "t3"⟩ :: annaJobs4)
        1 1 "Анна" false true true).2.any
      (fun j => j.id == jobId 1 "Анна" "3d") = false ∧
    ⟨jobId 1 "Анна" "annual", 30, .rearm "Анна" annaBirth 1 9 0 none⟩ ∈
      (process_settings_reminders [annaSub]
        (⟨jobId 1 "Анна" "3d", 5, .sendReminder 1 "t3"⟩ :: annaJobs4)
        1 1 "Анна" false true true).2 :=
  ⟨(settings_flags_remove_only [annaSub]
      (⟨jobId 1 "Анна" "3d", 5, .sendReminder 1 "t3"⟩ :: annaJobs4)
      1 1 "Анна" false true true).2.1 rfl,
   (settings_flags_remove_only [annaSub]
      (⟨jobId 1 "Анна" "3d", 5, .sendReminder 1 "t3"⟩ :: annaJobs4)
      1 1 "Анна" false true true).2.2.2.2.1
     ⟨jobId 1 "Анна" "annual", 30, .rearm "Анна" annaBirth 1 9 0 none⟩
     (by decide) (by decide)⟩

def annaSub10 : Subscription := { annaSub with reminder_hour := 10 }

def now1 : DateTime := ⟨2025, 5, 16, 12, 0, 0⟩

/-- Counterexample to C5: the store's reminder time was edited to 10:00, but
firing the annual job (which captured 09:00 in its `args` when it was
armed) re-arms every job at 09:00 — the reminder time is NOT re-read from
the store at fire time, so the edit is not honored by the annual cycle. -/
theorem annual_rearm_captured_time_cex :
    (runAction (.rearm "Анна" annaBirth 1 9 0 none) [annaSub10] [] now1).1 =
      .ok [⟨jobId 1 "Анна" "3d", toUTC ⟨2026, 5, 15, 9, 0, 0⟩ - 3 * 86400,
             .sendReminder 1 ("⏰ Напоминание: Через 3 дня у " ++ "Анна" ++ " день рождения!")⟩,
           ⟨jobId 1 "Анна" "1d", toUTC ⟨2026, 5, 15, 9, 0, 0⟩ - 86400,
             .sendReminder 1 ("⏰ Напоминание: Завтра у " ++ "Анна" ++ " день рождения!")⟩,
           ⟨jobId 1 "Анна" "day_notification", toUTC ⟨2026, 5, 15, 9, 0, 0⟩,
             .sendBirthdayNotification 1 "Анна" none⟩,
           ⟨jobId 1 "Анна" "day_congrats", toUTC ⟨2026, 5, 15, 9, 0, 0⟩ + 2,
             .sendCongrats 1 "Анна" annaBirth (some "любит кошек")⟩,
           ⟨jobId 1 "Анна" "annual", toUTC ⟨2027, 5, 15, 9, 0, 0⟩ + 86400,
             .rearm "Анна" annaBirth 1 9 0 none⟩] ∧
    annaSub10.reminder_hour = 10 ∧
    toUTC ⟨2026, 5, 15, 9, 0, 0⟩ ≠ toUTC ⟨2026, 5, 15, 10, 0, 0⟩ := by
  refine ⟨rfl, rfl, by decide⟩

/-- Claim C5 (amended): the annual-rearm job is due at the following year's
occurrence plus 1 day and its action re-invokes `schedule_reminders` for
the same subscription against the store as it is at fire time (so the
flags and the description are re-read), but with the reminder time and
username captured in its `args` when the job was armed. -/
theorem annual_rearm_captured_args (store : List Subscription) (sched : List Job)
    (name : String) (birth : Date) (chat : Int) (rh rm : Nat) (u : Option String)
    (now : DateTime) (sub : Subscription) (nb nyb : DateTime)
    (hfind : findSub store name chat = some sub)
    (hnb : get_next_birthday birth rh rm now = some nb)
    (hny : replaceYearDT nb (nb.year + 1) = some nyb)
    (hfresh : ∀ k ∈ kinds5, sched.any (fun j => j.id == jobId chat name k) = false) :
    (∃ s2, schedule_reminders store sched name birth chat rh rm u now = .ok s2 ∧
      ⟨jobId chat name "annual", toUTC nyb + 86400,
        .rearm name birth chat rh rm u⟩ ∈ s2) ∧
    (∀ (store2 : List Subscription) (sched2 : List Job) (now2 : DateTime),
      runAction (.rearm name birth chat rh rm u) store2 sched2 now2 =
        (schedule_reminders store2 sched2 name birth chat rh rm u now2, [])) := by
  constructor
  · refine ⟨_, schedule_reminders_eq store sched name birth chat rh rm u now sub nb nyb
      hfind hnb hny hfresh, ?_⟩
    simp
  · intro store2 sched2 now2
    rfl

/-- Witness for C5 (amended) at the Anna fixture. -/
theorem annual_rearm_captured_args_witness :
    (∃ s2, schedule_reminders [annaSub] [] "Анна" annaBirth 1 9 0 none now0 = .ok s2 ∧
      ⟨jobId 1 "Анна" "annual", toUTC ⟨2025, 5, 15, 9, 0, 0⟩ + 86400,
        .rearm "Анна" annaBirth 1 9 0 none⟩ ∈ s2) ∧
    (∀ (store2 : List Subscription) (sched2 : List Job) (now2 : DateTime),
      runAction (.rearm "Анна" annaBirth 1 9 0 none) store2 sched2 now2 =
        (schedule_reminders store2 sched2 "Анна" annaBirth 1 9 0 none now2, [])) :=
  annual_rearm_captured_args [annaSub] [] "Анна" annaBirth 1 9 0 none now0
    annaSub ⟨2024, 5, 15, 9, 0, 0⟩ ⟨2025, 5, 15, 9, 0, 0⟩
    (by decide) (by decide) (by decide) (by decide)

def annaSubNewDesc : Subscription := { annaSub with description := some "новое описание" }

/-- Counterexample to C8: arming captures the description that is in the
store at arm time; firing the day-congratulation job against a store whose
description was edited afterwards still hands the Message Composer the old
captured description, not the current one. -/
theorem congrats_desc_captured_at_arm_cex :
    (∃ s2, schedule_reminders [annaSub] [] "Анна" annaBirth 1 9 0 none now0 = .ok s2 ∧
      ⟨jobId 1 "Анна" "day_congrats", toUTC ⟨2024, 5, 15, 9, 0, 0⟩ + 2,
        .sendCongrats 1 "Анна" annaBirth (some "любит кошек")⟩ ∈ s2) ∧
    (runAction (.sendCongrats 1 "Анна" annaBirth (some "любит кошек"))
        [annaSubNewDesc] [] now1).2 =
      [.congrats 1 "Анна" annaBirth (some "любит кошек")] ∧
    annaSubNewDesc.description = some "новое описание" ∧
    (some "любит кошек" : Option String) ≠ some "новое описание" := by
  refine ⟨⟨_, rfl, by decide⟩, rfl, rfl, by decide⟩

/-- Claim C8 (amended): the day-congratulation job's action carries the
`(name, birthdate, description)` triple with the description read from the
store at ARM time inside `schedule_reminders`; at fire time the action
passes exactly that captured triple to the Message Composer, whatever the
store holds then. -/
theorem congrats_desc_read_at_arm (store : List Subscription) (sched : List Job)
    (name : String) (birth : Date) (chat : Int) (rh rm : Nat) (u : Option String)
    (now : DateTime) (sub : Subscription) (nb nyb : DateTime)
    (hfind : findSub store name chat = some sub)
    (hd : sub.remind_day = true)
    (hnb : get_next_birthday birth rh rm now = some nb)
    (hny : replaceYearDT nb (nb.year + 1) = some nyb)
    (hfresh : ∀ k ∈ kinds5, sched.any (fun j => j.id == jobId chat name k) = false) :
    (∃ s2, schedule_reminders store sched name birth chat rh rm u now = .ok s2 ∧
      ⟨jobId chat name "day_congrats", toUTC nb + 2,
        .sendCongrats chat name birth sub.description⟩ ∈ s2) ∧
    (∀ (store2 : List Subscription) (sched2 : List Job) (now2 : DateTime)
       (c : Int) (n : String) (b : Date) (d : Option String),
      runAction (.sendCongrats c n b d) store2 sched2 now2 =
        (.ok sched2, [.congrats c n b d])) := by
  constructor
  · refine ⟨_, schedule_reminders_eq store sched name birth chat rh rm u now sub nb nyb
      hfind hnb hny hfresh, ?_⟩
    rw [hd]
    simp
  · intro store2 sched2 now2 c n b d
    rfl

/-- Witness for C8 (amended) at the Anna fixture. -/
theorem congrats_desc_read_at_arm_witness :
    (∃ s2, schedule_reminders [annaSub] [] "Анна" annaBirth 1 9 0 none now0 = .ok s2 ∧
      ⟨jobId 1 "Анна" "day_congrats", toUTC ⟨2024, 5, 15, 9, 0, 0⟩ + 2,
        .sendCongrats 1 "Анна" annaBirth annaSub.description⟩ ∈ s2) ∧
    (∀ (store2 : List Subscription) (sched2 : List Job) (now2 : DateTime)
       (c : Int) (n : String) (b : Date) (d : Option String),
      runAction (.sendCongrats c n b d) store2 sched2 now2 =
        (.ok sched2, [.congrats c n b d])) :=
  congrats_desc_read_at_arm [annaSub] [] "Анна" annaBirth 1 9 0 none now0
    annaSub ⟨2024, 5, 15, 9, 0, 0⟩ ⟨2025, 5, 15, 9, 0, 0⟩
    (by decide) rfl (by decide) (by decide) (by decide)

end BirthdayBot
